import Mathlib

/-!
Verification of the computer-use agent loop (the `llmService` module).

A shallow embedding of the computer-use agent of this repository:
`launchSandboxedBrowser`, `handleModelAction`, `captureScreenshot` and
`runComputerUseAgent`.  Effects on the Playwright page, the console and the
OpenAI client are modelled as an explicit event trace (`Ev`); the model's
behaviour and the possible failures of the environment are an oracle
(`Env`).  The agent loop is given explicit fuel, since the source imposes
no step ceiling; `none` as run outcome means the fuel ran out while the
loop was still going, i.e. no exit path was taken yet.
-/

namespace BerryAgent

/-- A JavaScript value, as far as the dispatcher inspects one: the `url`
field of a navigate action may be absent (`undefined`), `null`, or of a
non-string type. -/
inductive JVal where
  | undef : JVal
  | null : JVal
  | str : String → JVal
  | num : Int → JVal
  | bool : Bool → JVal
deriving DecidableEq, Repr

/-- JavaScript truthiness, as tested by `!url`. -/
def JVal.truthy : JVal → Bool
  | .undef => false
  | .null => false
  | .str s => s ≠ ""
  | .num n => n ≠ 0
  | .bool b => b

/-- Whether `typeof url === "string"` holds. -/
def JVal.isString : JVal → Bool
  | .str _ => true
  | _ => false

/-- An action object as read by `handleModelAction`.  The `type` tag is an
arbitrary string (the switch has a default arm); the fields are exactly
those the dispatcher destructures.  `button`, `duration` and `wait_until`
are optional because the code supplies defaults for them; `url` is a raw
`JVal` because the code validates its type at runtime. -/
structure Action where
  type : String
  x : Int := 0
  y : Int := 0
  button : Option String := none
  scroll_x : Int := 0
  scroll_y : Int := 0
  text : String := ""
  keys : List String := []
  duration : Option Nat := none
  url : JVal := .undef
  wait_until : Option String := none
deriving DecidableEq, Repr

/-- One summary entry of a `reasoning` output item (`item.summary?.[0]?.text`). -/
structure SummaryPart where
  text : Option String
deriving DecidableEq, Repr

/-- An output item of a model response, narrowed to the two shapes the loop
reads: a `computer_call` (with its action, call id and pending safety
checks) or any other item, carrying its `type` string and the optional
`text` and `summary` fields the terminal branch inspects. -/
inductive Item where
  | computerCall (action : Action) (callId : String)
      (pendingSafetyChecks : Option (List String)) : Item
  | plain (type : String) (text : Option String)
      (summary : Option (List SummaryPart)) : Item
deriving DecidableEq, Repr

/-- Projection `item.type`. -/
def Item.typeStr : Item → String
  | .computerCall .. => "computer_call"
  | .plain t _ _ => t

/-- The predicate of `response.output?.find(item => item.type === "computer_call")`. -/
def Item.isComputerCall (i : Item) : Bool :=
  i.typeStr = "computer_call"

/-- Projection `item.text` (only `plain` items are read for text). -/
def Item.textField : Item → Option String
  | .computerCall .. => none
  | .plain _ t _ => t

/-- Projection `item.summary`. -/
def Item.summaryField : Item → Option (List SummaryPart)
  | .computerCall .. => none
  | .plain _ _ s => s

/-- A model response: its id and its (possibly absent) output array. -/
structure Response where
  id : String
  output : Option (List Item)
deriving DecidableEq, Repr

/-- One tool declaration of an outbound request. -/
structure ToolDecl where
  type : String
  display_width : Nat
  display_height : Nat
  environment : String
deriving DecidableEq, Repr

/-- One element of the `input` array of an outbound request: the initial
user text, or a `computer_call_output` with its call id, acknowledged
safety checks and screenshot image url. -/
inductive TurnInput where
  | userText (text : String) : TurnInput
  | computerCallOutput (callId : String)
      (acknowledgedSafetyChecks : List String) (imageUrl : String) : TurnInput
deriving DecidableEq, Repr

/-- An outbound payload of `openai.responses.create`. -/
structure Request where
  model : String
  previous_response_id : Option String
  tools : List ToolDecl
  input : List TurnInput
  reasoning_summary : Option String
  truncation : String
deriving DecidableEq, Repr

/-- Observable events of a run: Playwright page/browser calls, console
warnings and errors, and outbound model requests. -/
inductive Ev where
  | chromiumLaunch : Ev
  | newPage : Ev
  | setViewport (width height : Nat) : Ev
  | browserClose : Ev
  | mouseClick (x y : Int) (button : String) : Ev
  | mouseDblclick (x y : Int) (button : String) : Ev
  | mouseMove (x y : Int) : Ev
  | evaluateScrollBy (sx sy : Int) : Ev
  | keyboardType (text : String) : Ev
  | keyboardPress (key : String) : Ev
  | waitForTimeout (ms : Nat) : Ev
  | goto (url : String) (waitUntil : String) : Ev
  | screenshot : Ev
  | warn (msg : String) : Ev
  | error (msg : String) : Ev
  | create (req : Request) : Ev
deriving DecidableEq, Repr

/-- The environment oracle: which environment operations fail, what each
screenshot contains, and what the model answers to the `k`-th request
(`respond 0` answers the initial request; an `.error` is a transport
failure, i.e. a rejected `openai.responses.create`). -/
structure Env where
  launchFails : Bool
  newPageFails : Bool
  gotoFails : String → String → Bool
  shot : Nat → String
  respond : Nat → Except String Response

/-- The string content of a `JVal` (only read after `isString` held). -/
def JVal.asString : JVal → String
  | .str s => s
  | _ => ""

/-- Embedding of `handleModelAction(page, action)`: dispatches on `action.type` exactly
as the source's `switch` does (a JS `switch` compares the scrutinee for
strict equality against each case label in order, with `open_url`, `goto`
and `navigate` sharing one arm by fall-through).  The result is the list of
events performed; `.error` would mean an exception escaping the handler. -/
def handleModelAction (env : Env) (action : Action) : Except String (List Ev) :=
  if action.type = "click" then
    .ok [.mouseClick action.x action.y (action.button.getD "left")]
  else if action.type = "double_click" then
    .ok [.mouseDblclick action.x action.y (action.button.getD "left")]
  else if action.type = "scroll" then
    .ok [.mouseMove action.x action.y,
         .evaluateScrollBy action.scroll_x action.scroll_y]
  else if action.type = "type" then
    .ok [.keyboardType action.text]
  else if action.type = "keypress" then
    .ok (action.keys.map .keyboardPress)
  else if action.type = "wait" then
    .ok [.waitForTimeout (action.duration.getD 1000)]
  else if action.type = "open_url" ∨ action.type = "goto" ∨
      action.type = "navigate" then
    -- `if (!url || typeof url !== "string") { console.warn(...); break; }`
    if ¬ action.url.truthy ∨ ¬ action.url.isString then
      .ok [.warn "Missing or invalid URL in navigate action"]
    else
      -- `try { await page.goto(url, { waitUntil: wait_until }) } catch (err)
      -- { console.error(...) }`: a rejected navigation is caught and logged,
      -- never propagated.
      if env.gotoFails action.url.asString (action.wait_until.getD "load") then
        .ok [.goto action.url.asString (action.wait_until.getD "load"),
             .error ("Failed to navigate to " ++ action.url.asString)]
      else
        .ok [.goto action.url.asString (action.wait_until.getD "load")]
  else if action.type = "screenshot" then
    .ok []
  else
    .ok [.warn ("Unrecognized action type: " ++ action.type)]

/-- Embedding of `captureScreenshot(page)`: one `page.screenshot` call, whose base-64
payload the environment supplies (`k` numbers the screenshots of the run). -/
def captureScreenshot (env : Env) (k : Nat) : List Ev × String :=
  ([.screenshot], env.shot k)

/-- The tool declaration sent on every outbound request. -/
def computerTool : ToolDecl :=
  { type := "computer_use_preview"
    display_width := 1024
    display_height := 768
    environment := "browser" }

/-- The first request of `runComputerUseAgent`: the task prompt, the
computer-use tool, concise reasoning summary, auto truncation. -/
def initialRequest (prompt : String) : Request :=
  { model := "computer-use-preview"
    previous_response_id := none
    tools := [computerTool]
    input := [.userText prompt]
    reasoning_summary := some "concise"
    truncation := "auto" }

/-- The screenshot-feedback request sent at the end of a loop iteration:
`computer_call_output` keyed by the call id, with the acknowledged safety
checks and the screenshot as a data url, linked to the previous response. -/
def buildTurnRequest (prevId callId : String) (acked : List String)
    (shotB64 : String) : Request :=
  { model := "computer-use-preview"
    previous_response_id := some prevId
    tools := [computerTool]
    input := [.computerCallOutput callId acked
        ("data:image/png;base64," ++ shotB64)]
    reasoning_summary := none
    truncation := "auto" }

/-- The search `response.output?.find(item => item.type === "computer_call")`
(an absent output array yields no find). -/
def findComputerCall (resp : Response) : Option Item :=
  (resp.output.getD []).find? Item.isComputerCall

/-- The terminal branch of the loop: filter the text-bearing items
(`type === "text" || type === "reasoning"`), map each to
`item.text ?? item.summary?.[0]?.text ?? ""`, join with a newline;
an absent output array yields `""`. -/
def fragText (i : Item) : String :=
  match i.textField with
  | some t => t
  | none =>
      match i.summaryField with
      | some (s₀ :: _) => s₀.text.getD ""
      | _ => ""

/-- The filter predicate `item.type === "text" || item.type === "reasoning"`. -/
def isTextBearing (i : Item) : Bool :=
  i.typeStr = "text" ∨ i.typeStr = "reasoning"

/-- The return value `textParts?.join("\n") ?? ""` over the filtered, mapped output. -/
def extractText (resp : Response) : String :=
  match resp.output with
  | none => ""
  | some items =>
      String.intercalate "\n" ((items.filter isTextBearing).map fragText)

/-- One iteration of the main loop of `runComputerUseAgent`, acting on the
current response.  `k` numbers the iteration (used for the screenshot
oracle).  Outcome `.inl s` is the `return` of the terminal branch;
`.inr req` means the iteration built and sent request `req` and the loop
continues with its response.  The trace lists the events of the iteration
in program order: the dispatched action's events, the 750 ms settle delay,
the screenshot, the outbound request. -/
def loopIter (env : Env) (k : Nat) (resp : Response) :
    List Ev × Except String (String ⊕ Request) :=
  match findComputerCall resp with
  | some (.computerCall action callId pendingSafetyChecks) =>
      match handleModelAction env action with
      | .error e => ([], .error e)
      | .ok handlerTrace =>
          let (shotTrace, shotB64) := captureScreenshot env k
          let acked := pendingSafetyChecks.getD []
          let req := buildTurnRequest resp.id callId acked shotB64
          (handlerTrace ++ [.waitForTimeout 750] ++ shotTrace ++ [.create req],
            .ok (.inr req))
  | some (.plain ..) =>
      -- a found item of type "computer_call" that carries no action:
      -- `const { action } = computerCall` yields `undefined` and the
      -- subsequent `action.type` access throws.
      ([], .error "TypeError: action is undefined")
  | none => ([], .ok (.inl (extractText resp)))

/-- The main loop (`while (true) { ... }`), with explicit fuel.  Outcome
`none` means the fuel ran out with the loop still running; `some (.ok s)`
is a normal return with result `s`; `some (.error e)` is an exception
propagating out of the `try` block (in this model, only a transport
failure of `openai.responses.create`). -/
def runLoop (env : Env) : Nat → Nat → Response →
    List Ev × Option (Except String String)
  | 0, _, _ => ([], none)
  | fuel + 1, k, resp =>
      match loopIter env k resp with
      | (t, .error e) => (t, some (.error e))
      | (t, .ok (.inl s)) => (t, some (.ok s))
      | (t, .ok (.inr _)) =>
          match env.respond (k + 1) with
          | .error e => (t, some (.error e))
          | .ok resp' =>
              let (t', r) := runLoop env fuel (k + 1) resp'
              (t ++ t', r)

/-- Embedding of `launchSandboxedBrowser()`: `chromium.launch`, then `browser.newPage`,
then `page.setViewportSize({1024, 768})`.  A failure of either of the
first two steps rejects, leaving behind exactly the events already
performed — in particular a `newPage` failure happens after the browser
was launched. -/
def launchSandboxedBrowser (env : Env) : List Ev × Except String Unit :=
  if env.launchFails then
    ([], .error "chromium.launch failed")
  else if env.newPageFails then
    ([.chromiumLaunch], .error "browser.newPage failed")
  else
    ([.chromiumLaunch, .newPage, .setViewport 1024 768], .ok ())

/-- Embedding of `runComputerUseAgent(prompt)`: launch the browser (outside the
`try`), then inside `try { first request; main loop }` with
`finally { browser.close() }`.  The `finally` clause runs on every exit of
the `try` block — normal return or propagating error — but not when the
launch itself rejected, and not while the loop is still running (fuel
exhausted, outcome `none`). -/
def runComputerUseAgent (env : Env) (fuel : Nat) (prompt : String) :
    List Ev × Option (Except String String) :=
  match launchSandboxedBrowser env with
  | (t, .error e) => (t, some (.error e))
  | (t, .ok _) =>
      let t := t ++ [.create (initialRequest prompt)]
      match env.respond 0 with
      | .error e => (t ++ [.browserClose], some (.error e))
      | .ok resp₀ =>
          match runLoop env fuel 0 resp₀ with
          | (t', none) => (t ++ t', none)
          | (t', some r) => (t ++ t' ++ [.browserClose], some r)

/-- Number of `browser.close()` calls in a trace. -/
def countClose : List Ev → Nat
  | [] => 0
  | .browserClose :: t => countClose t + 1
  | _ :: t => countClose t

/-- Number of `page.screenshot()` calls in a trace. -/
def countShot : List Ev → Nat
  | [] => 0
  | .screenshot :: t => countShot t + 1
  | _ :: t => countShot t

/-- Events that are Browser Session page primitives (as opposed to console
output, outbound requests, or browser lifecycle calls). -/
def Ev.isPageCall : Ev → Bool
  | .mouseClick .. => true
  | .mouseDblclick .. => true
  | .mouseMove .. => true
  | .evaluateScrollBy .. => true
  | .keyboardType .. => true
  | .keyboardPress .. => true
  | .waitForTimeout .. => true
  | .goto .. => true
  | .screenshot => true
  | _ => false

/-- Events that `handleModelAction` can emit: page primitives other than
`screenshot`, and console warnings/errors. -/
def Ev.fromHandler : Ev → Bool
  | .mouseClick .. => true
  | .mouseDblclick .. => true
  | .mouseMove .. => true
  | .evaluateScrollBy .. => true
  | .keyboardType .. => true
  | .keyboardPress .. => true
  | .waitForTimeout .. => true
  | .goto .. => true
  | .warn _ => true
  | .error _ => true
  | _ => false

/-- The case labels of the dispatcher's `switch`. -/
def recognizedTypes : List String :=
  ["click", "double_click", "scroll", "type", "keypress", "wait",
   "open_url", "goto", "navigate", "screenshot"]

/-- The response carries at least one item of type `computer_call`. -/
def hasComputerCall (resp : Response) : Bool :=
  (resp.output.getD []).any Item.isComputerCall

/-- Modelled from the spec: "the produced result equals the concatenation
(in original order) of all text-bearing fragments of that terminal turn,
joined by a single newline, empty string if none". -/
def specTerminalResult (resp : Response) : String :=
  String.intercalate "\n" (((resp.output.getD []).filter isTextBearing).map fragText)

/-- The viewport/payload invariant of a single trace event: a `create`
event carries the computer-use tool declaration, a `setViewport` event
sets 1024×768. -/
def goodEv (e : Ev) : Prop :=
  (∀ req, e = Ev.create req → req.tools = [computerTool]) ∧
  (∀ w h', e = Ev.setViewport w h' → w = 1024 ∧ h' = 768)


/-- The environment of the resource-leak counterexample: `chromium.launch`
succeeds, `browser.newPage` rejects. -/
def leakEnv : Env :=
  { launchFails := false
    newPageFails := true
    gotoFails := fun _ _ => false
    shot := fun _ => ""
    respond := fun _ => .error "unused" }


/-- Modelled from the spec (§4.1): the Browser Session's primitive
operations. -/
inductive Prim where
  | click (x y : Int) (button : String) : Prim
  | doubleClick (x y : Int) (button : String) : Prim
  | scroll (x y dx dy : Int) : Prim
  | typeText (text : String) : Prim
  | pressKeys (keys : List String) : Prim
  | wait (ms : Nat) : Prim
  | navigate (url : String) (waitPolicy : String) : Prim
deriving DecidableEq, Repr

/-- Modelled from the spec (§4.1): the page calls one invocation of each
Browser Session primitive performs (`scroll` moves the pointer then scrolls
the document; `pressKeys` presses each named key in order). -/
def Prim.sessionCalls : Prim → List Ev
  | .click x y b => [.mouseClick x y b]
  | .doubleClick x y b => [.mouseDblclick x y b]
  | .scroll x y dx dy => [.mouseMove x y, .evaluateScrollBy dx dy]
  | .typeText t => [.keyboardType t]
  | .pressKeys ks => ks.map .keyboardPress
  | .wait ms => [.waitForTimeout ms]
  | .navigate u w => [.goto u w]

/-- Modelled from the spec (§3, §4.2): the single Browser Session primitive
that matches an action of the vocabulary, with the action's parameters
(and the documented defaults); `none` when no primitive matches. -/
def specPrimOf (a : Action) : Option Prim :=
  if a.type = "click" then some (.click a.x a.y (a.button.getD "left"))
  else if a.type = "double_click" then
    some (.doubleClick a.x a.y (a.button.getD "left"))
  else if a.type = "scroll" then some (.scroll a.x a.y a.scroll_x a.scroll_y)
  else if a.type = "type" then some (.typeText a.text)
  else if a.type = "keypress" then some (.pressKeys a.keys)
  else if a.type = "wait" then some (.wait (a.duration.getD 1000))
  else if a.type = "open_url" ∨ a.type = "goto" ∨ a.type = "navigate" then
    match a.url with
    | .str u =>
        if u = "" then none else some (.navigate u (a.wait_until.getD "load"))
    | _ => none
  else none

/-- An action of the claimed vocabulary whose parameters are valid (for
navigation: a non-empty string URL). -/
def validParams (a : Action) : Prop :=
  a.type = "click" ∨ a.type = "double_click" ∨ a.type = "scroll" ∨
  a.type = "type" ∨ a.type = "keypress" ∨ a.type = "wait" ∨
  ((a.type = "open_url" ∨ a.type = "goto" ∨ a.type = "navigate") ∧
    ∃ u, a.url = .str u ∧ u ≠ "")


/-! Concrete inputs used to exercise the theorems. -/

def clickAction : Action := { type := "click", x := 50, y := 50 }

def respClick : Response :=
  ⟨"resp_1", some [.computerCall clickAction "call_1" (some ["tok_a", "tok_b"]),
                   .plain "text" (some "ignored") none]⟩

def respDone : Response :=
  ⟨"resp_2", some [.plain "text" (some "Done") none,
                   .plain "text" (some "Task complete") none]⟩

def okEnv : Env :=
  { launchFails := false
    newPageFails := false
    gotoFails := fun _ _ => false
    shot := fun _ => "IMG"
    respond := fun k => if k = 0 then .ok respClick else .ok respDone }

def failNavEnv : Env := { okEnv with gotoFails := fun _ _ => true }

def unknownAction : Action := { type := "drag" }

def badNavAction : Action := { type := "navigate" }

def navAction : Action := { type := "navigate", url := .str "https://example.com" }

def navParamsAction : Action :=
  { type := "navigate", url := .str "https://example.com",
    wait_until := some "domcontentloaded" }

def waitSomeAction : Action := { type := "wait", duration := some 250 }

def waitNoneAction : Action := { type := "wait" }

def screenshotAction : Action := { type := "screenshot" }


theorem extractText_eq_specTerminalResult (resp : Response) :
    extractText resp = specTerminalResult resp := by
  rcases resp with ⟨id, _ | items⟩ <;>
    simp [extractText, specTerminalResult, String.intercalate]

theorem handleModelAction_ok (env : Env) (a : Action) :
    ∃ t, handleModelAction env a = .ok t := by
  unfold handleModelAction
  split_ifs <;> exact ⟨_, rfl⟩

theorem handler_events (env : Env) (a : Action) (t : List Ev)
    (h : handleModelAction env a = .ok t) :
    ∀ e ∈ t, e.fromHandler = true := by
  unfold handleModelAction at h
  split_ifs at h <;> injection h with h <;> subst h <;>
    simp [List.forall_mem_cons, List.forall_mem_map, Ev.fromHandler]

theorem fromHandler_ne (e : Ev) (h : e.fromHandler = true) :
    e ≠ .browserClose ∧ e ≠ .screenshot ∧ (∀ req, e ≠ .create req) ∧
      (∀ w h', e ≠ .setViewport w h') := by
  cases e <;> simp_all [Ev.fromHandler]

theorem countClose_append (s t : List Ev) :
    countClose (s ++ t) = countClose s + countClose t := by
  induction s with
  | nil => simp [countClose]
  | cons e s ih => cases e <;> simp [countClose, ih] <;> omega

theorem countShot_append (s t : List Ev) :
    countShot (s ++ t) = countShot s + countShot t := by
  induction s with
  | nil => simp [countShot]
  | cons e s ih => cases e <;> simp [countShot, ih] <;> omega

theorem countClose_eq_zero (t : List Ev) (h : ∀ e ∈ t, e ≠ Ev.browserClose) :
    countClose t = 0 := by
  induction t with
  | nil => rfl
  | cons e t ih =>
      have he := h e (List.mem_cons_self e t)
      have ht := fun x hx => h x (List.mem_cons_of_mem e hx)
      cases e <;> simp [countClose] <;> first | exact ih ht | exact absurd rfl he

theorem countShot_eq_zero (t : List Ev) (h : ∀ e ∈ t, e ≠ Ev.screenshot) :
    countShot t = 0 := by
  induction t with
  | nil => rfl
  | cons e t ih =>
      have he := h e (List.mem_cons_self e t)
      have ht := fun x hx => h x (List.mem_cons_of_mem e hx)
      cases e <;> simp [countShot] <;> first | exact ih ht | exact absurd rfl he

theorem loopIter_countClose (env : Env) (k : Nat) (resp : Response) :
    countClose (loopIter env k resp).1 = 0 := by
  unfold loopIter
  cases hf : findComputerCall resp with
  | none => rfl
  | some item =>
      cases item with
      | plain ty tx s => rfl
      | computerCall a cid p =>
          obtain ⟨t, ht⟩ := handleModelAction_ok env a
          dsimp only
          rw [ht]
          dsimp only [captureScreenshot]
          simp only [countClose_append]
          have h0 : countClose t = 0 :=
            countClose_eq_zero t
              (fun e he => (fromHandler_ne e (handler_events env a t ht e he)).1)
          simp [h0, countClose]

theorem loopIter_countShot (env : Env) (k : Nat) (resp : Response)
    (a : Action) (cid : String) (p : Option (List String))
    (hf : findComputerCall resp = some (.computerCall a cid p)) :
    countShot (loopIter env k resp).1 = 1 := by
  unfold loopIter
  rw [hf]
  obtain ⟨t, ht⟩ := handleModelAction_ok env a
  dsimp only
  rw [ht]
  dsimp only [captureScreenshot]
  simp only [countShot_append]
  have h0 : countShot t = 0 :=
    countShot_eq_zero t
      (fun e he => (fromHandler_ne e (handler_events env a t ht e he)).2.1)
  simp [h0, countShot]

theorem findComputerCall_eq_none_iff (resp : Response) :
    findComputerCall resp = none ↔ hasComputerCall resp = false := by
  simp [findComputerCall, hasComputerCall, List.find?_eq_none, List.any_eq_false]

theorem hasComputerCall_of_find (resp : Response) (item : Item)
    (hf : findComputerCall resp = some item) : hasComputerCall resp = true := by
  unfold findComputerCall at hf
  simp only [hasComputerCall, List.any_eq_true]
  exact ⟨item, List.mem_of_find?_eq_some hf, List.find?_some hf⟩

theorem loopIter_continue (env : Env) (k : Nat) (resp : Response)
    (a : Action) (cid : String) (p : Option (List String))
    (hf : findComputerCall resp = some (.computerCall a cid p)) :
    ∃ ht, handleModelAction env a = .ok ht ∧
      loopIter env k resp =
        (ht ++ [.waitForTimeout 750] ++ [.screenshot] ++
            [.create (buildTurnRequest resp.id cid (p.getD []) (env.shot k))],
          .ok (.inr (buildTurnRequest resp.id cid (p.getD []) (env.shot k)))) := by
  obtain ⟨ht, hok⟩ := handleModelAction_ok env a
  refine ⟨ht, hok, ?_⟩
  unfold loopIter
  rw [hf]
  dsimp only
  rw [hok]
  rfl

/-- C1: the agent loop returns exactly when the response carries no
`computer_call` item, and the returned string is the newline-join of the
text-bearing fragments of that terminal response, `""` when there are
none. -/
theorem agent_loop_terminal_iff (env : Env) (k : Nat) (resp : Response) :
    ((∃ s, (loopIter env k resp).2 = .ok (.inl s)) ↔
        hasComputerCall resp = false)
    ∧ (hasComputerCall resp = false →
        (loopIter env k resp).2 = .ok (.inl (specTerminalResult resp)))
    ∧ ((resp.output.getD []).filter isTextBearing = [] →
        specTerminalResult resp = "") := by
  have hterm : hasComputerCall resp = false →
      (loopIter env k resp).2 = .ok (.inl (specTerminalResult resp)) := by
    intro hcc
    have hf : findComputerCall resp = none :=
      (findComputerCall_eq_none_iff resp).mpr hcc
    unfold loopIter
    rw [hf]
    simp [extractText_eq_specTerminalResult]
  refine ⟨⟨?_, fun hcc => ⟨_, hterm hcc⟩⟩, hterm, fun hempty => ?_⟩
  · rintro ⟨s, hs⟩
    cases hf : findComputerCall resp with
    | none => exact (findComputerCall_eq_none_iff resp).mp hf
    | some item =>
        exfalso
        cases item with
        | computerCall a cid p =>
            obtain ⟨ht, hok, hiter⟩ := loopIter_continue env k resp a cid p hf
            rw [hiter] at hs
            simp at hs
        | plain ty tx su =>
            unfold loopIter at hs
            rw [hf] at hs
            simp at hs
  · simp only [specTerminalResult, hempty, List.map_nil]
    rfl

theorem goodEv_of_fromHandler (e : Ev) (h : e.fromHandler = true) : goodEv e := by
  cases e <;> simp_all [Ev.fromHandler, goodEv]

theorem goodEv_create_computerTool (req : Request)
    (h : req.tools = [computerTool]) : goodEv (Ev.create req) := by
  constructor
  · intro req' hreq
    injection hreq with hreq
    subst hreq
    exact h
  · intro w h' hx
    cases hx

theorem loopIter_good (env : Env) (k : Nat) (resp : Response) :
    ∀ e ∈ (loopIter env k resp).1, goodEv e := by
  unfold loopIter
  cases hf : findComputerCall resp with
  | none => simp
  | some item =>
      cases item with
      | plain ty tx s => simp
      | computerCall a cid p =>
          obtain ⟨t, ht⟩ := handleModelAction_ok env a
          dsimp only
          rw [ht]
          dsimp only [captureScreenshot]
          intro e he
          rcases List.mem_append.mp he with he | he
          · rcases List.mem_append.mp he with he | he
            · rcases List.mem_append.mp he with he | he
              · exact goodEv_of_fromHandler e (handler_events env a t ht e he)
              · simp only [List.mem_singleton] at he
                subst he
                simp [goodEv]
            · simp only [List.mem_singleton] at he
              subst he
              simp [goodEv]
          · simp only [List.mem_singleton] at he
            subst he
            exact goodEv_create_computerTool _ rfl

theorem runLoop_good (env : Env) :
    ∀ fuel k resp, ∀ e ∈ (runLoop env fuel k resp).1, goodEv e := by
  intro fuel
  induction fuel with
  | zero => intro k resp e he; simp [runLoop] at he
  | succ n ih =>
      intro k resp e he
      unfold runLoop at he
      rcases hli : loopIter env k resp with ⟨t, r⟩
      first | rw [hli] at he | skip
      have hgt : ∀ x ∈ t, goodEv x := fun x hx =>
        loopIter_good env k resp x (by rw [hli]; exact hx)
      rcases r with e' | s | req'
      · exact hgt e he
      · exact hgt e he
      · dsimp only at he
        cases hr : env.respond (k + 1) with
        | error e2 =>
            first | rw [hr] at he | skip
            exact hgt e he
        | ok resp' =>
            first | rw [hr] at he | skip
            dsimp only at he
            rcases List.mem_append.mp he with hm | hm
            · exact hgt e hm
            · exact ih (k + 1) resp' e hm

theorem run_good (env : Env) (fuel : Nat) (prompt : String) :
    ∀ e ∈ (runComputerUseAgent env fuel prompt).1, goodEv e := by
  intro e he
  have hpre : ∀ x ∈ ([Ev.chromiumLaunch, Ev.newPage, Ev.setViewport 1024 768] ++
      [Ev.create (initialRequest prompt)]), goodEv x := by
    intro x hx
    simp only [List.mem_append, List.mem_cons, List.not_mem_nil, or_false] at hx
    rcases hx with (rfl | rfl | rfl) | rfl
    · simp [goodEv]
    · simp [goodEv]
    · constructor
      · intro req hreq
        cases hreq
      · intro w h' hx
        injection hx with h1 h2
        exact ⟨h1.symm, h2.symm⟩
    · exact goodEv_create_computerTool _ rfl
  unfold runComputerUseAgent launchSandboxedBrowser at he
  cases hl : env.launchFails with
  | true => rw [hl] at he; simp at he
  | false =>
      rw [hl] at he
      cases hn : env.newPageFails with
      | true =>
          rw [hn] at he
          simp at he
          subst he
          simp [goodEv]
      | false =>
          rw [hn] at he
          simp only [Bool.false_eq_true, if_false] at he
          cases hr : env.respond 0 with
          | error e2 =>
              first | rw [hr] at he | skip
              dsimp only at he
              rcases List.mem_append.mp he with hm | hm
              · exact hpre e hm
              · simp only [List.mem_singleton] at hm
                subst hm
                simp [goodEv]
          | ok resp₀ =>
              first | rw [hr] at he | skip
              dsimp only at he
              rcases hrl : runLoop env fuel 0 resp₀ with ⟨t2, r2⟩
              first | rw [hrl] at he | skip
              cases r2 with
              | none =>
                  dsimp only at he
                  rcases List.mem_append.mp he with hm | hm
                  · exact hpre e hm
                  · exact runLoop_good env fuel 0 resp₀ e (by rw [hrl]; exact hm)
              | some rr =>
                  dsimp only at he
                  rcases List.mem_append.mp he with hm | hm
                  · rcases List.mem_append.mp hm with hm' | hm'
                    · exact hpre e hm'
                    · exact runLoop_good env fuel 0 resp₀ e (by rw [hrl]; exact hm')
                  · simp only [List.mem_singleton] at hm
                    subst hm
                    simp [goodEv]

theorem runLoop_countClose (env : Env) :
    ∀ fuel k resp, countClose (runLoop env fuel k resp).1 = 0 := by
  intro fuel
  induction fuel with
  | zero => intro k resp; rfl
  | succ n ih =>
      intro k resp
      unfold runLoop
      rcases hli : loopIter env k resp with ⟨t, r⟩
      have h0 : countClose t = 0 := by
        have h' := loopIter_countClose env k resp
        rw [hli] at h'
        exact h'
      rcases r with e | s | req
      · exact h0
      · exact h0
      · dsimp only
        cases hr : env.respond (k + 1) with
        | error e => exact h0
        | ok resp' =>
            dsimp only
            rw [countClose_append, h0]
            simpa using ih (k + 1) resp'

/-- C2 (amended): whenever `launchSandboxedBrowser` succeeds, every settled
exit of the run — normal completion or a propagating error — performs
`browser.close()` exactly once. -/
theorem runComputerUseAgent_close_once (env : Env) (fuel : Nat)
    (prompt : String) (r : Except String String)
    (h1 : env.launchFails = false) (h2 : env.newPageFails = false)
    (h : (runComputerUseAgent env fuel prompt).2 = some r) :
    countClose (runComputerUseAgent env fuel prompt).1 = 1 := by
  unfold runComputerUseAgent launchSandboxedBrowser at h ⊢
  rw [h1, h2] at h ⊢
  simp only [Bool.false_eq_true, if_false] at h ⊢
  cases hr : env.respond 0 with
  | error e => simp [countClose_append, countClose]
  | ok resp₀ =>
      first | rw [hr] at h | skip
      first | rw [hr] | skip
      dsimp only at h ⊢
      rcases hrl : runLoop env fuel 0 resp₀ with ⟨t2, r2⟩
      first | rw [hrl] at h | skip
      first | rw [hrl] | skip
      cases r2 with
      | none => dsimp only at h; simp at h
      | some rr =>
          dsimp only
          have h0 : countClose t2 = 0 := by
            have h' := runLoop_countClose env fuel 0 resp₀
            rw [hrl] at h'
            exact h'
          simp [countClose_append, countClose, h0]

/-- C2 (counterexample): when `browser.newPage()` rejects after
`chromium.launch()` succeeded, the error propagates with the browser
launched (the `chromiumLaunch` event happened) but `browser.close()` is
never invoked — the claimed "close exactly once on every exit path,
including browser-open failure" is false, and the launched instance leaks. -/
theorem runComputerUseAgent_close_leak :
    (runComputerUseAgent leakEnv 1 "task").1 = [.chromiumLaunch]
    ∧ countClose (runComputerUseAgent leakEnv 1 "task").1 = 0
    ∧ (runComputerUseAgent leakEnv 1 "task").2 =
        some (.error "browser.newPage failed") := by
  refine ⟨rfl, rfl, rfl⟩

/-- C7: every outbound payload of a run declares the computer-use tool with
`display_width` 1024 and `display_height` 768, and the only viewport the
browser page is ever set to is 1024×768. -/
theorem run_fixed_viewport (env : Env) (fuel : Nat) (prompt : String)
    (req : Request) (h : Ev.create req ∈ (runComputerUseAgent env fuel prompt).1) :
    req.tools = [ToolDecl.mk "computer_use_preview" 1024 768 "browser"]
    ∧ ∀ w h', Ev.setViewport w h' ∈ (runComputerUseAgent env fuel prompt).1 →
        w = 1024 ∧ h' = 768 := by
  refine ⟨(run_good env fuel prompt _ h).1 req rfl, fun w h' hm =>
    (run_good env fuel prompt _ hm).2 w h' rfl⟩

theorem handleModelAction_nav (env : Env) (a : Action)
    (hty : a.type = "open_url" ∨ a.type = "goto" ∨ a.type = "navigate") :
    handleModelAction env a =
      if ¬ a.url.truthy ∨ ¬ a.url.isString then
        .ok [.warn "Missing or invalid URL in navigate action"]
      else if env.gotoFails a.url.asString (a.wait_until.getD "load") then
        .ok [.goto a.url.asString (a.wait_until.getD "load"),
             .error ("Failed to navigate to " ++ a.url.asString)]
      else
        .ok [.goto a.url.asString (a.wait_until.getD "load")] := by
  unfold handleModelAction
  rcases hty with hty | hty | hty <;> rw [hty] <;> rfl

/-- C3: the request an iteration sends back carries, verbatim, the pending
safety checks of the `computer_call` it just executed (`[]` when the field
was absent), in its `acknowledged_safety_checks` slot. -/
theorem safety_checks_echoed (env : Env) (k : Nat) (resp : Response)
    (a : Action) (cid : String) (p : Option (List String))
    (hf : findComputerCall resp = some (.computerCall a cid p)) :
    ∃ t req, loopIter env k resp = (t, .ok (.inr req)) ∧
      req.input = [.computerCallOutput cid (p.getD [])
        ("data:image/png;base64," ++ env.shot k)] ∧
      Ev.create req ∈ t := by
  obtain ⟨ht, hok, hiter⟩ := loopIter_continue env k resp a cid p hf
  refine ⟨_, _, hiter, rfl, ?_⟩
  simp

/-- C6: a response carrying both a `computer_call` and text fragments makes
the loop execute the action and continue (send a next request) rather than
terminate: the action takes precedence. -/
theorem action_takes_precedence (env : Env) (k : Nat) (resp : Response)
    (a : Action) (cid : String) (p : Option (List String))
    (hf : findComputerCall resp = some (.computerCall a cid p))
    (htext : (resp.output.getD []).filter isTextBearing ≠ []) :
    ∃ ht req, handleModelAction env a = .ok ht ∧
      loopIter env k resp = (ht ++ [.waitForTimeout 750] ++ [.screenshot] ++
        [.create req], .ok (.inr req)) := by
  obtain ⟨ht, hok, hiter⟩ := loopIter_continue env k resp a cid p hf
  exact ⟨ht, _, hok, hiter⟩

/-- C8: a `screenshot` action dispatches no page call at all, and each
loop iteration that executes an action captures exactly one screenshot. -/
theorem screenshot_action_noop (env : Env) (k : Nat) (resp : Response)
    (a : Action) (cid : String) (p : Option (List String)) (act : Action) :
    (act.type = "screenshot" → handleModelAction env act = .ok [])
    ∧ (findComputerCall resp = some (.computerCall a cid p) →
        countShot (loopIter env k resp).1 = 1) := by
  constructor
  · intro hty
    unfold handleModelAction
    rw [hty]
    rfl
  · intro hf
    exact loopIter_countShot env k resp a cid p hf

/-- C9: a `wait` action suspends for its `duration` when present and for
1000 ms when the field is absent. -/
theorem wait_action_duration (env : Env) (act : Action)
    (hty : act.type = "wait") :
    handleModelAction env act = .ok [.waitForTimeout (act.duration.getD 1000)]
    ∧ (∀ d, act.duration = some d →
        handleModelAction env act = .ok [.waitForTimeout d])
    ∧ (act.duration = none →
        handleModelAction env act = .ok [.waitForTimeout 1000]) := by
  have h : handleModelAction env act =
      .ok [.waitForTimeout (act.duration.getD 1000)] := by
    unfold handleModelAction
    rw [hty]
    rfl
  refine ⟨h, fun d hd => ?_, fun hd => ?_⟩
  · rw [h, hd]
    rfl
  · rw [h, hd]
    rfl

/-- C4: an unrecognized action kind and a navigate action with a
missing/non-string URL are absorbed with a console warning; a failing
navigation is caught and logged; none of them raises, and the loop still
waits, screenshots and sends the next turn after any dispatched action. -/
theorem dispatch_never_raises (env : Env) (a : Action) (k : Nat)
    (resp : Response) :
    (a.type ∉ recognizedTypes →
      handleModelAction env a =
        .ok [.warn ("Unrecognized action type: " ++ a.type)])
    ∧ ((a.type = "open_url" ∨ a.type = "goto" ∨ a.type = "navigate") →
        (¬ a.url.truthy ∨ ¬ a.url.isString) →
        handleModelAction env a =
          .ok [.warn "Missing or invalid URL in navigate action"])
    ∧ ((a.type = "open_url" ∨ a.type = "goto" ∨ a.type = "navigate") →
        ∀ u, a.url = .str u → u ≠ "" →
        env.gotoFails u (a.wait_until.getD "load") = true →
        handleModelAction env a = .ok [.goto u (a.wait_until.getD "load"),
          .error ("Failed to navigate to " ++ u)])
    ∧ (∀ a' cid p, findComputerCall resp = some (.computerCall a' cid p) →
        ∃ ht req, handleModelAction env a' = .ok ht ∧
          loopIter env k resp = (ht ++ [.waitForTimeout 750] ++ [.screenshot] ++
            [.create req], .ok (.inr req))) := by
  refine ⟨?_, ?_, ?_, ?_⟩
  · intro hnr
    simp only [recognizedTypes, List.mem_cons, List.not_mem_nil, or_false,
      not_or] at hnr
    obtain ⟨h1, h2, h3, h4, h5, h6, h7, h8, h9, h10⟩ := hnr
    unfold handleModelAction
    simp [h1, h2, h3, h4, h5, h6, h7, h8, h9, h10]
  · intro hty hbad
    rw [handleModelAction_nav env a hty, if_pos hbad]
  · intro hty u hu hne hfail
    rw [handleModelAction_nav env a hty, hu]
    simp [JVal.truthy, JVal.isString, JVal.asString, hne, hfail]
  · intro a' cid p hf
    obtain ⟨ht, hok, hiter⟩ := loopIter_continue env k resp a' cid p hf
    exact ⟨ht, _, hok, hiter⟩

/-- C10: `open_url` and `goto` dispatch identically to `navigate` — same
validation, same `page.goto`, same absorption of a navigation failure —
rather than falling into the unrecognized-kind arm. -/
theorem navigate_aliases (env : Env) (a : Action) (t t' : String)
    (h : t = "open_url" ∨ t = "goto" ∨ t = "navigate")
    (h' : t' = "open_url" ∨ t' = "goto" ∨ t' = "navigate") :
    handleModelAction env { a with type := t } =
      handleModelAction env { a with type := t' }
    ∧ (∀ u, a.url = .str u → u ≠ "" →
        handleModelAction env { a with type := t } =
          .ok (if env.gotoFails u (a.wait_until.getD "load") then
            [.goto u (a.wait_until.getD "load"),
             .error ("Failed to navigate to " ++ u)]
          else [.goto u (a.wait_until.getD "load")])) := by
  have hv : ∀ ty, (ty = "open_url" ∨ ty = "goto" ∨ ty = "navigate") →
      handleModelAction env { a with type := ty } =
        if ¬ a.url.truthy ∨ ¬ a.url.isString then
          .ok [.warn "Missing or invalid URL in navigate action"]
        else if env.gotoFails a.url.asString (a.wait_until.getD "load") then
          .ok [.goto a.url.asString (a.wait_until.getD "load"),
               .error ("Failed to navigate to " ++ a.url.asString)]
        else
          .ok [.goto a.url.asString (a.wait_until.getD "load")] :=
    fun ty hty => handleModelAction_nav env { a with type := ty } hty
  constructor
  · rw [hv t h, hv t' h']
  · intro u hu hne
    rw [hv t h, hu]
    simp [JVal.truthy, JVal.isString, JVal.asString, hne]
    split_ifs <;> rfl

theorem filter_isPageCall_map_press (ks : List String) :
    (ks.map Ev.keyboardPress).filter Ev.isPageCall = ks.map Ev.keyboardPress := by
  induction ks with
  | nil => rfl
  | cons k ks ih => simp [Ev.isPageCall, ih]

/-- C5: for every vocabulary action with valid parameters, the dispatcher's
page calls are exactly one invocation of the unique matching Browser
Session primitive — and nothing else. -/
theorem dispatch_one_primitive (env : Env) (a : Action) (h : validParams a) :
    ∃ p ht, specPrimOf a = some p ∧ handleModelAction env a = .ok ht ∧
      ht.filter Ev.isPageCall = p.sessionCalls := by
  rcases h with hty | hty | hty | hty | hty | hty | ⟨hty, u, hu, hne⟩
  · refine ⟨.click a.x a.y (a.button.getD "left"),
      [.mouseClick a.x a.y (a.button.getD "left")], ?_, ?_, rfl⟩
    · unfold specPrimOf; rw [hty]; rfl
    · unfold handleModelAction; rw [hty]; rfl
  · refine ⟨.doubleClick a.x a.y (a.button.getD "left"),
      [.mouseDblclick a.x a.y (a.button.getD "left")], ?_, ?_, rfl⟩
    · unfold specPrimOf; rw [hty]; rfl
    · unfold handleModelAction; rw [hty]; rfl
  · refine ⟨.scroll a.x a.y a.scroll_x a.scroll_y,
      [.mouseMove a.x a.y, .evaluateScrollBy a.scroll_x a.scroll_y], ?_, ?_, rfl⟩
    · unfold specPrimOf; rw [hty]; rfl
    · unfold handleModelAction; rw [hty]; rfl
  · refine ⟨.typeText a.text, [.keyboardType a.text], ?_, ?_, rfl⟩
    · unfold specPrimOf; rw [hty]; rfl
    · unfold handleModelAction; rw [hty]; rfl
  · refine ⟨.pressKeys a.keys, a.keys.map .keyboardPress, ?_, ?_,
      filter_isPageCall_map_press a.keys⟩
    · unfold specPrimOf; rw [hty]; rfl
    · unfold handleModelAction; rw [hty]; rfl
  · refine ⟨.wait (a.duration.getD 1000),
      [.waitForTimeout (a.duration.getD 1000)], ?_, ?_, rfl⟩
    · unfold specPrimOf; rw [hty]; rfl
    · unfold handleModelAction; rw [hty]; rfl
  · have hsp : specPrimOf a = some (.navigate u (a.wait_until.getD "load")) := by
      unfold specPrimOf
      rcases hty with hty | hty | hty <;> rw [hty, hu] <;> simp [hne] <;> rfl
    have hnav := handleModelAction_nav env a hty
    rw [hu] at hnav
    simp [JVal.truthy, JVal.isString, JVal.asString, hne] at hnav
    by_cases hg : env.gotoFails u (a.wait_until.getD "load")
    · rw [if_pos hg] at hnav
      exact ⟨.navigate u (a.wait_until.getD "load"),
        [.goto u (a.wait_until.getD "load"),
         .error ("Failed to navigate to " ++ u)], hsp, hnav, rfl⟩
    · rw [if_neg hg] at hnav
      exact ⟨.navigate u (a.wait_until.getD "load"),
        [.goto u (a.wait_until.getD "load")], hsp, hnav, rfl⟩

/-- C1 witness: the spec scenario — a terminal response with two text
fragments resolves to their newline join. -/
theorem agent_loop_terminal_iff_witness :
    hasComputerCall respDone = false
    ∧ (loopIter okEnv 0 respDone).2 = .ok (.inl "Done\nTask complete") := by
  have h := (agent_loop_terminal_iff okEnv 0 respDone).2.1 (by rfl)
  refine ⟨rfl, ?_⟩
  rw [h]
  rfl

/-- C2 witness: a two-turn run (click, then done) closes the browser
exactly once. -/
theorem runComputerUseAgent_close_once_witness :
    countClose (runComputerUseAgent okEnv 2 "do the task").1 = 1 :=
  runComputerUseAgent_close_once okEnv 2 "do the task"
    (.ok "Done\nTask complete") rfl rfl rfl

/-- C3 witness: the two pending safety tokens of `resp_1`'s computer call
are echoed verbatim in the next outbound payload. -/
theorem safety_checks_echoed_witness :
    ∃ t req, loopIter okEnv 0 respClick = (t, .ok (.inr req)) ∧
      req.input = [.computerCallOutput "call_1"
        ((some ["tok_a", "tok_b"]).getD [])
        ("data:image/png;base64," ++ okEnv.shot 0)] ∧
      Ev.create req ∈ t :=
  safety_checks_echoed okEnv 0 respClick clickAction "call_1"
    (some ["tok_a", "tok_b"]) rfl

/-- C4 witness: a `drag` action, a URL-less navigate, and a failing
navigation are all absorbed; the loop then still waits, screenshots and
sends the next turn. -/
theorem dispatch_never_raises_witness :
    handleModelAction okEnv unknownAction =
      .ok [.warn ("Unrecognized action type: " ++ unknownAction.type)]
    ∧ handleModelAction okEnv badNavAction =
        .ok [.warn "Missing or invalid URL in navigate action"]
    ∧ handleModelAction failNavEnv navAction =
        .ok [.goto "https://example.com" (navAction.wait_until.getD "load"),
          .error ("Failed to navigate to " ++ "https://example.com")]
    ∧ ∃ ht req, handleModelAction okEnv clickAction = .ok ht ∧
        loopIter okEnv 0 respClick = (ht ++ [.waitForTimeout 750] ++
          [.screenshot] ++ [.create req], .ok (.inr req)) := by
  refine ⟨?_, ?_, ?_, ?_⟩
  · exact (dispatch_never_raises okEnv unknownAction 0 respClick).1 (by decide)
  · exact (dispatch_never_raises okEnv badNavAction 0 respClick).2.1
      (Or.inr (Or.inr rfl)) (Or.inl (by decide))
  · exact (dispatch_never_raises failNavEnv navAction 0 respClick).2.2.1
      (Or.inr (Or.inr rfl)) "https://example.com" rfl (by decide) rfl
  · exact (dispatch_never_raises okEnv clickAction 0 respClick).2.2.2
      clickAction "call_1" (some ["tok_a", "tok_b"]) rfl

/-- C5 witness: a `click(50,50)` action dispatches to exactly one `click`
primitive. -/
theorem dispatch_one_primitive_witness :
    ∃ p ht, specPrimOf clickAction = some p ∧
      handleModelAction okEnv clickAction = .ok ht ∧
      ht.filter Ev.isPageCall = p.sessionCalls :=
  dispatch_one_primitive okEnv clickAction (Or.inl rfl)

/-- C6 witness: `resp_1` carries both a computer call and a text item, and
the loop continues. -/
theorem action_takes_precedence_witness :
    ∃ ht req, handleModelAction okEnv clickAction = .ok ht ∧
      loopIter okEnv 0 respClick = (ht ++ [.waitForTimeout 750] ++
        [.screenshot] ++ [.create req], .ok (.inr req)) :=
  action_takes_precedence okEnv 0 respClick clickAction "call_1"
    (some ["tok_a", "tok_b"]) rfl (by decide)

/-- C7 witness: the initial payload of a concrete run declares the
1024×768 computer-use tool, and the only viewport ever set is 1024×768. -/
theorem run_fixed_viewport_witness :
    (initialRequest "go").tools =
      [ToolDecl.mk "computer_use_preview" 1024 768 "browser"]
    ∧ ∀ w h', Ev.setViewport w h' ∈ (runComputerUseAgent okEnv 2 "go").1 →
        w = 1024 ∧ h' = 768 :=
  run_fixed_viewport okEnv 2 "go" (initialRequest "go") (by decide)

/-- C8 witness: the `screenshot` action is a no-op and the click iteration
captures exactly one screenshot. -/
theorem screenshot_action_noop_witness :
    handleModelAction okEnv screenshotAction = .ok []
    ∧ countShot (loopIter okEnv 0 respClick).1 = 1 := by
  have h := screenshot_action_noop okEnv 0 respClick clickAction "call_1"
    (some ["tok_a", "tok_b"]) screenshotAction
  exact ⟨h.1 rfl, h.2 rfl⟩

/-- C9 witness: `wait` with duration 250 waits 250 ms; without a duration
it waits 1000 ms. -/
theorem wait_action_duration_witness :
    handleModelAction okEnv waitSomeAction = .ok [.waitForTimeout 250]
    ∧ handleModelAction okEnv waitNoneAction = .ok [.waitForTimeout 1000] :=
  ⟨(wait_action_duration okEnv waitSomeAction rfl).2.1 250 rfl,
   (wait_action_duration okEnv waitNoneAction rfl).2.2 rfl⟩

/-- C10 witness: `open_url` and `goto` dispatch identically on a concrete
navigate payload, performing the `page.goto` call. -/
theorem navigate_aliases_witness :
    handleModelAction okEnv { navParamsAction with type := "open_url" } =
      handleModelAction okEnv { navParamsAction with type := "goto" }
    ∧ handleModelAction okEnv { navParamsAction with type := "open_url" } =
        .ok (if okEnv.gotoFails "https://example.com"
            (navParamsAction.wait_until.getD "load") then
          [.goto "https://example.com" (navParamsAction.wait_until.getD "load"),
           .error ("Failed to navigate to " ++ "https://example.com")]
        else
          [.goto "https://example.com"
            (navParamsAction.wait_until.getD "load")]) :=
  ⟨(navigate_aliases okEnv navParamsAction "open_url" "goto" (Or.inl rfl)
      (Or.inr (Or.inl rfl))).1,
   (navigate_aliases okEnv navParamsAction "open_url" "goto" (Or.inl rfl)
      (Or.inr (Or.inl rfl))).2 "https://example.com" rfl (by decide)⟩

end BerryAgent
